import Mathlib

/-!
Verification of the air-quality ELT pipeline's Transform Engine
(`scripts/transform.py`) and the pipeline validator
(`dags/air_quality_elt_dag.py`).

The SQL executed by `transform_data` is embedded shallowly:

* numeric columns are rationals (`ℚ`); nullable columns are `Option ℚ`,
  with SQL three-valued logic made explicit (a comparison against NULL is
  not true, arithmetic on NULL yields NULL);
* `AVG(col) OVER (PARTITION BY station_id)` averages the non-NULL values
  of the station, and is NULL when the station has no non-NULL value;
* the `CASE` ladders for `aqi`, `health_category` and `health_color` are
  translated branch by branch;
* `transform_data` raises when the raw table is empty, modelled with
  `Except`; otherwise it rebuilds the analytics table row by row from the
  raw table, which it never writes.

Timestamp-derived columns (`hour`, `day_of_week`, `date`) and the
aggregate views are not needed by any property below and are omitted.
-/

/-- A row of `raw_data_air_quality` (schema of `load_raw.py`):
`pm25`, `pm10`, `no2`, `o3` are the nullable pollutant columns; the
remaining measurements are non-null in this dataset. -/
structure Reading where
  station_id : String
  station_type : String
  timestamp : String
  pm25 : Option ℚ
  pm10 : Option ℚ
  no2 : Option ℚ
  o3 : Option ℚ
  so2 : ℚ
  co : ℚ
  temperature : ℚ
  humidity : ℚ
  deriving DecidableEq, Repr

/-- A row of `analytics_air_quality` as built by `transform_data`.
The imputed pollutant columns stay nullable: when a station has no
non-null value for a column, `COALESCE(col, AVG(col) OVER ...)` is NULL. -/
structure Enriched where
  station_id : String
  station_type : String
  timestamp : String
  pm25 : Option ℚ
  pm10 : Option ℚ
  no2 : Option ℚ
  o3 : Option ℚ
  so2 : ℚ
  co : ℚ
  temperature : ℚ
  humidity : ℚ
  aqi : Option ℚ
  health_category : String
  health_color : String
  deriving DecidableEq, Repr

/-- SQL `x <= c` as a filter condition: NULL compares to nothing, so the
branch is not taken. -/
def sqlLe (x : Option ℚ) (c : ℚ) : Bool :=
  match x with
  | none => false
  | some v => decide (v ≤ c)

/-- The PM2.5 → AQI `CASE` ladder of `transform.py` (lines 60-67), on a
non-null concentration. -/
def aqiOfPm25 (v : ℚ) : ℚ :=
  if v ≤ 12.0 then v * 50.0 / 12.0
  else if v ≤ 35.4 then 50.0 + (v - 12.0) * 50.0 / 23.4
  else if v ≤ 55.4 then 100.0 + (v - 35.4) * 50.0 / 20.0
  else if v ≤ 150.4 then 150.0 + (v - 55.4) * 50.0 / 95.0
  else if v ≤ 250.4 then 200.0 + (v - 150.4) * 100.0 / 100.0
  else 300.0 + (v - 250.4) * 100.0 / 150.0

/-- The same `CASE` on the nullable `pm25` column: every `WHEN pm25 <= c`
is unknown on NULL, and the `ELSE` arithmetic `300.0 + (NULL - 250.4) * ...`
is NULL, so the whole expression is NULL. -/
def aqiExpr (pm25 : Option ℚ) : Option ℚ :=
  match pm25 with
  | none => none
  | some v => some (aqiOfPm25 v)

/-- The `health_category` `CASE` ladder of `transform.py` (lines 76-83).
On a NULL `aqi` every `WHEN` is unknown, so the `ELSE` gives Hazardous. -/
def healthCategoryExpr (aqi : Option ℚ) : String :=
  if sqlLe aqi 50 then "Good"
  else if sqlLe aqi 100 then "Moderate"
  else if sqlLe aqi 150 then "Unhealthy for Sensitive Groups"
  else if sqlLe aqi 200 then "Unhealthy"
  else if sqlLe aqi 300 then "Very Unhealthy"
  else "Hazardous"

/-- The `health_color` `CASE` ladder of `transform.py` (lines 84-91). -/
def healthColorExpr (aqi : Option ℚ) : String :=
  if sqlLe aqi 50 then "#00E400"
  else if sqlLe aqi 100 then "#FFFF00"
  else if sqlLe aqi 150 then "#FF7E00"
  else if sqlLe aqi 200 then "#FF0000"
  else if sqlLe aqi 300 then "#8F3F97"
  else "#7E0023"

/-- SQL `COALESCE` on two nullable values. -/
def coalesce (x y : Option ℚ) : Option ℚ :=
  match x with
  | some v => some v
  | none => y

/-- The non-null values of column `f` among the rows of station `sid`:
the values `AVG(f) OVER (PARTITION BY station_id)` averages. -/
def stationVals (f : Reading → Option ℚ) (rows : List Reading) (sid : String) : List ℚ :=
  (rows.filter (fun r => r.station_id = sid)).filterMap f

/-- SQL `AVG(f) OVER (PARTITION BY station_id)`: the arithmetic mean of
the station's non-null values of `f`, NULL when there is none. -/
def stationAvg (f : Reading → Option ℚ) (rows : List Reading) (sid : String) : Option ℚ :=
  if (stationVals f rows sid).length = 0 then none
  else some ((stationVals f rows sid).sum / (stationVals f rows sid).length)

/-- One output row of the `CREATE OR REPLACE TABLE analytics_air_quality`
query of `transform_data` (lines 37-93): per-station mean imputation of
the four nullable pollutants, then the AQI and health `CASE` columns. -/
def enrichRow (rows : List Reading) (r : Reading) : Enriched :=
  let pm25 := coalesce r.pm25 (stationAvg Reading.pm25 rows r.station_id)
  let pm10 := coalesce r.pm10 (stationAvg Reading.pm10 rows r.station_id)
  let no2 := coalesce r.no2 (stationAvg Reading.no2 rows r.station_id)
  let o3 := coalesce r.o3 (stationAvg Reading.o3 rows r.station_id)
  let aqi := aqiExpr pm25
  { station_id := r.station_id
    station_type := r.station_type
    timestamp := r.timestamp
    pm25 := pm25
    pm10 := pm10
    no2 := no2
    o3 := o3
    so2 := r.so2
    co := r.co
    temperature := r.temperature
    humidity := r.humidity
    aqi := aqi
    health_category := healthCategoryExpr aqi
    health_color := healthColorExpr aqi }

/-- `transform_data` (transform.py): raises `ValueError` when the raw
table is empty, otherwise rebuilds the analytics table from the raw
table, one output row per raw row. -/
def transform_data (raw : List Reading) : Except String (List Enriched) :=
  if raw.length = 0 then
    Except.error "Raw table is empty. Run load_raw.py first."
  else
    Except.ok (raw.map (enrichRow raw))

/-- The database state seen by the pipeline: the raw table and the
analytics table (absent before the first transform). -/
structure DB where
  raw : List Reading
  analytics : Option (List Enriched)
  deriving DecidableEq

/-- `transform_data` acting on the database: it reads `raw`, and the only
table it creates or replaces is `analytics_air_quality`; no statement of
the script writes `raw_data_air_quality`. -/
def transformDB (db : DB) : Except String DB :=
  match transform_data db.raw with
  | Except.error e => Except.error e
  | Except.ok out => Except.ok { raw := db.raw, analytics := some out }

/-- Number of NULLs of a nullable column in the raw table. -/
def nullCount (f : Reading → Option ℚ) (rows : List Reading) : ℕ :=
  (rows.filter (fun r => (f r).isNone)).length

/-- What `validate_pipeline` (air_quality_elt_dag.py, lines 218-240)
computes: the raw row count, the raw `pm25` NULL count
(`COUNT(*) - COUNT(pm25)`), and the analytics row count. -/
structure ValidationReport where
  raw_count : ℕ
  raw_nulls : ℕ
  analytics_count : ℕ
  deriving DecidableEq, Repr

/-- `validate_pipeline`: it queries the three numbers and logs them.
The function body contains no assertion, no raise and no comparison
between the counts, so on existing tables its only outcome is a
successful report; the `Except` error channel records that the source
has no failure path of its own. -/
def validate_pipeline (raw : List Reading) (analytics : List Enriched) :
    Except String ValidationReport :=
  Except.ok
    { raw_count := raw.length
      raw_nulls := nullCount Reading.pm25 raw
      analytics_count := analytics.length }

/-- The expression of the first `WHEN` branch of the AQI `CASE`
(segment [0, 12]). -/
def aqiSeg1 (v : ℚ) : ℚ := v * 50.0 / 12.0

/-- The expression of the second `WHEN` branch (segment (12, 35.4]). -/
def aqiSeg2 (v : ℚ) : ℚ := 50.0 + (v - 12.0) * 50.0 / 23.4

/-- The expression of the third `WHEN` branch (segment (35.4, 55.4]). -/
def aqiSeg3 (v : ℚ) : ℚ := 100.0 + (v - 35.4) * 50.0 / 20.0

/-- The expression of the fourth `WHEN` branch (segment (55.4, 150.4]). -/
def aqiSeg4 (v : ℚ) : ℚ := 150.0 + (v - 55.4) * 50.0 / 95.0

/-- The expression of the fifth `WHEN` branch (segment (150.4, 250.4]). -/
def aqiSeg5 (v : ℚ) : ℚ := 200.0 + (v - 150.4) * 100.0 / 100.0

/-- The expression of the `ELSE` branch (segment (250.4, ∞)). -/
def aqiSeg6 (v : ℚ) : ℚ := 300.0 + (v - 250.4) * 100.0 / 150.0

/-- A sample raw row used in concrete instantiations: station `sid`,
`pm25` value `p`, the other columns fixed. -/
def mkReading (sid : String) (p : Option ℚ) : Reading :=
  { station_id := sid
    station_type := "urban"
    timestamp := "2025-11-01 00:00:00"
    pm25 := p
    pm10 := some 20
    no2 := some 10
    o3 := some 30
    so2 := 5
    co := 1
    temperature := 20
    humidity := 50 }

/-- C1: The AQI function maps the breakpoint concentrations exactly:
AQI(0) = 0, AQI(12.0) = 50, AQI(35.4) = 100, AQI(55.4) = 150,
AQI(150.4) = 200, AQI(250.4) = 300. -/
theorem aqi_breakpoint_exactness :
    aqiOfPm25 0 = 0 ∧ aqiOfPm25 12.0 = 50 ∧ aqiOfPm25 35.4 = 100 ∧
    aqiOfPm25 55.4 = 150 ∧ aqiOfPm25 150.4 = 200 ∧ aqiOfPm25 250.4 = 300 := by
  refine ⟨?_, ?_, ?_, ?_, ?_, ?_⟩ <;> norm_num [aqiOfPm25]

set_option maxHeartbeats 2000000

/-- C2: The AQI function is non-decreasing on the whole domain
(for all 0 ≤ a ≤ b, AQI(a) ≤ AQI(b)), and consecutive branch
expressions of the piecewise definition agree at every breakpoint
(12, 35.4, 55.4, 150.4, 250.4), so the segments meet without jumps. -/
theorem aqi_monotone_and_continuous :
    (∀ a b : ℚ, 0 ≤ a → a ≤ b → aqiOfPm25 a ≤ aqiOfPm25 b) ∧
    aqiSeg1 12.0 = aqiSeg2 12.0 ∧ aqiSeg2 35.4 = aqiSeg3 35.4 ∧
    aqiSeg3 55.4 = aqiSeg4 55.4 ∧ aqiSeg4 150.4 = aqiSeg5 150.4 ∧
    aqiSeg5 250.4 = aqiSeg6 250.4 := by
  refine ⟨?_, by norm_num [aqiSeg1, aqiSeg2], by norm_num [aqiSeg2, aqiSeg3],
    by norm_num [aqiSeg3, aqiSeg4], by norm_num [aqiSeg4, aqiSeg5],
    by norm_num [aqiSeg5, aqiSeg6]⟩
  intro a b _ hab
  unfold aqiOfPm25
  split_ifs <;> norm_num at * <;> linarith

/-- Witness for C2 at a = 1, b = 2. -/
theorem aqi_monotone_and_continuous_witness :
    aqiOfPm25 1 ≤ aqiOfPm25 2 :=
  aqi_monotone_and_continuous.1 1 2 (by norm_num) (by norm_num)

set_option maxHeartbeats 400000

/-- C3 counterexample: at concentration 400.4 the code's `ELSE` branch
uses slope 100/150, not the slope 1 of the last finite segment, so the
claimed value 300 + (400.4 - 250.4) * 1 = 450 differs from the computed
AQI 400. -/
theorem aqi_extrapolation_counterexample :
    aqiOfPm25 400.4 = 400 ∧ 300 + ((400.4 : ℚ) - 250.4) * 1 = 450 ∧
    (400 : ℚ) ≠ 450 := by
  refine ⟨by norm_num [aqiOfPm25], by norm_num, by norm_num⟩

/-- C3 amended: for every concentration strictly greater than 250.4 the
AQI is 300 + (c - 250.4) * 100 / 150, a slope of 100/150 = 2/3 — not the
slope 1 of the last finite segment. -/
theorem aqi_extrapolation (c : ℚ) (h : 250.4 < c) :
    aqiOfPm25 c = 300.0 + (c - 250.4) * 100.0 / 150.0 := by
  unfold aqiOfPm25
  rw [if_neg (by linarith), if_neg (by linarith), if_neg (by linarith),
    if_neg (by linarith), if_neg (by linarith)]

/-- Witness for C3's amended theorem at c = 400.4. -/
theorem aqi_extrapolation_witness :
    aqiOfPm25 400.4 = 300.0 + ((400.4 : ℚ) - 250.4) * 100.0 / 150.0 :=
  aqi_extrapolation 400.4 (by norm_num)

/-- C4: For every enriched row whose `aqi` is non-null, `health_category`
is the fixed threshold function of `aqi`, boundaries included in the
lower class: ≤ 50 Good, (50, 100] Moderate, (100, 150] Unhealthy for
Sensitive Groups, (150, 200] Unhealthy, (200, 300] Very Unhealthy,
> 300 Hazardous. -/
theorem health_category_thresholds (rows : List Reading) (r : Reading) (q : ℚ)
    (h : (enrichRow rows r).aqi = some q) :
    (q ≤ 50 → (enrichRow rows r).health_category = "Good") ∧
    (50 < q → q ≤ 100 → (enrichRow rows r).health_category = "Moderate") ∧
    (100 < q → q ≤ 150 →
      (enrichRow rows r).health_category = "Unhealthy for Sensitive Groups") ∧
    (150 < q → q ≤ 200 → (enrichRow rows r).health_category = "Unhealthy") ∧
    (200 < q → q ≤ 300 → (enrichRow rows r).health_category = "Very Unhealthy") ∧
    (300 < q → (enrichRow rows r).health_category = "Hazardous") := by
  have hc : (enrichRow rows r).health_category
      = healthCategoryExpr ((enrichRow rows r).aqi) := rfl
  rw [h] at hc
  rw [hc]
  unfold healthCategoryExpr sqlLe
  refine ⟨fun h1 => ?_, fun h1 h2 => ?_, fun h1 h2 => ?_, fun h1 h2 => ?_,
    fun h1 h2 => ?_, fun h1 => ?_⟩ <;>
    simp only [decide_eq_true_eq] <;> split_ifs <;> first | rfl | (exfalso; linarith)

/-- Witness for C4: a single reading with pm25 = 0 yields aqi = 0 and
category Good. -/
theorem health_category_thresholds_witness :
    (enrichRow [mkReading "A" (some 0)] (mkReading "A" (some 0))).health_category
      = "Good" :=
  (health_category_thresholds [mkReading "A" (some 0)] (mkReading "A" (some 0)) 0
    (by norm_num [enrichRow, aqiExpr, coalesce, mkReading, aqiOfPm25])).1 (by norm_num)

/-- The station mean a null is replaced with: sum over length of the
station's non-null values of the column. -/
def stationMean (f : Reading → Option ℚ) (rows : List Reading) (sid : String) : ℚ :=
  (stationVals f rows sid).sum / (stationVals f rows sid).length

/-- `COALESCE(x, AVG(f) OVER (PARTITION BY station_id))`: a null is
replaced by the station mean (when the station has a non-null value) and
a non-null value passes through unchanged. -/
theorem coalesce_stationAvg (x : Option ℚ) (f : Reading → Option ℚ)
    (rows : List Reading) (sid : String) :
    (x = none → stationVals f rows sid ≠ [] →
      coalesce x (stationAvg f rows sid) = some (stationMean f rows sid)) ∧
    (∀ v, x = some v → coalesce x (stationAvg f rows sid) = some v) := by
  constructor
  · intro hx hne
    subst hx
    show stationAvg f rows sid = _
    unfold stationAvg stationMean
    rw [if_neg (fun h => hne (List.length_eq_zero.mp h))]
  · intro v hv
    subst hv
    rfl

/-- C5: For each nullable pollutant column (pm25, pm10, no2, o3) and
each raw row of the dataset, a null of that column is replaced in the
enriched row by the arithmetic mean of the row's station's non-null
values of that column (provided the station has at least one), and a
non-null value passes through unchanged. -/
theorem imputation_per_station_mean (rows : List Reading) (r : Reading)
    (_hr : r ∈ rows) :
    ((r.pm25 = none → stationVals Reading.pm25 rows r.station_id ≠ [] →
        (enrichRow rows r).pm25 = some (stationMean Reading.pm25 rows r.station_id)) ∧
      (∀ v, r.pm25 = some v → (enrichRow rows r).pm25 = some v)) ∧
    ((r.pm10 = none → stationVals Reading.pm10 rows r.station_id ≠ [] →
        (enrichRow rows r).pm10 = some (stationMean Reading.pm10 rows r.station_id)) ∧
      (∀ v, r.pm10 = some v → (enrichRow rows r).pm10 = some v)) ∧
    ((r.no2 = none → stationVals Reading.no2 rows r.station_id ≠ [] →
        (enrichRow rows r).no2 = some (stationMean Reading.no2 rows r.station_id)) ∧
      (∀ v, r.no2 = some v → (enrichRow rows r).no2 = some v)) ∧
    ((r.o3 = none → stationVals Reading.o3 rows r.station_id ≠ [] →
        (enrichRow rows r).o3 = some (stationMean Reading.o3 rows r.station_id)) ∧
      (∀ v, r.o3 = some v → (enrichRow rows r).o3 = some v)) :=
  ⟨coalesce_stationAvg r.pm25 Reading.pm25 rows r.station_id,
   coalesce_stationAvg r.pm10 Reading.pm10 rows r.station_id,
   coalesce_stationAvg r.no2 Reading.no2 rows r.station_id,
   coalesce_stationAvg r.o3 Reading.o3 rows r.station_id⟩

/-- Four raw rows of one station: pm25 values 10, 20, 30 and one NULL. -/
def stationARows : List Reading :=
  [mkReading "A" (some 10), mkReading "A" (some 20), mkReading "A" (some 30),
   mkReading "A" none]

/-- Witness for C5: with station values [10, 20, 30] and one null, the
null is imputed to exactly 20. -/
theorem imputation_per_station_mean_witness :
    (enrichRow stationARows (mkReading "A" none)).pm25 = some 20 := by
  have h := (imputation_per_station_mean stationARows (mkReading "A" none)
    (by simp [stationARows])).1.1 rfl
    (by simp [stationARows, stationVals, mkReading])
  rw [h]
  simp [stationMean, stationVals, stationARows, mkReading]
  norm_num

/-- C6: the transform at a raw store whose only station has zero
non-null pm25 values: `AVG(pm25) OVER (PARTITION BY station_id)` is NULL,
`COALESCE(NULL, NULL)` is NULL, and `transform_data` completes normally —
the NULL is propagated into the enriched row, no error is raised. -/
theorem silent_null_on_empty_station_mean :
    transform_data [mkReading "Z" none]
      = Except.ok [enrichRow [mkReading "Z" none] (mkReading "Z" none)] ∧
    (enrichRow [mkReading "Z" none] (mkReading "Z" none)).pm25 = none ∧
    (enrichRow [mkReading "Z" none] (mkReading "Z" none)).aqi = none := by
  refine ⟨by simp [transform_data], ?_, ?_⟩ <;>
    simp [enrichRow, coalesce, stationAvg, stationVals, aqiExpr, mkReading]

/-- C7: on a non-empty raw store the transform succeeds and the enriched
table has exactly as many rows as the raw table. -/
theorem row_count_conservation (raw : List Reading) (hne : raw ≠ []) :
    ∃ out, transform_data raw = Except.ok out ∧ out.length = raw.length := by
  refine ⟨raw.map (enrichRow raw), ?_, by simp⟩
  unfold transform_data
  rw [if_neg (by simpa using hne)]

/-- Witness for C7 at a one-row raw store. -/
theorem row_count_conservation_witness :
    ∃ out, transform_data [mkReading "A" (some 1)] = Except.ok out ∧
      out.length = [mkReading "A" (some 1)].length :=
  row_count_conservation [mkReading "A" (some 1)] (by simp)

/-- C8: a successful transform leaves the raw table exactly as it was:
every raw row is unchanged, and in particular the null counts of the
nullable columns pm25, no2 and o3 are unchanged. -/
theorem raw_store_untouched (db db' : DB) (h : transformDB db = Except.ok db') :
    db'.raw = db.raw ∧
    nullCount Reading.pm25 db'.raw = nullCount Reading.pm25 db.raw ∧
    nullCount Reading.no2 db'.raw = nullCount Reading.no2 db.raw ∧
    nullCount Reading.o3 db'.raw = nullCount Reading.o3 db.raw := by
  have hraw : db'.raw = db.raw := by
    unfold transformDB at h
    cases htd : transform_data db.raw <;> rw [htd] at h
    · cases h
    · cases h
      rfl
  exact ⟨hraw, by rw [hraw], by rw [hraw], by rw [hraw]⟩

/-- The database before the sample transform. -/
def dbBefore : DB := { raw := [mkReading "A" (some 1)], analytics := none }

/-- The database after the sample transform. -/
def dbAfter : DB :=
  { raw := [mkReading "A" (some 1)]
    analytics := some ([mkReading "A" (some 1)].map (enrichRow [mkReading "A" (some 1)])) }

/-- Witness for C8 on a one-row database. -/
theorem raw_store_untouched_witness :
    dbAfter.raw = dbBefore.raw ∧
    nullCount Reading.pm25 dbAfter.raw = nullCount Reading.pm25 dbBefore.raw ∧
    nullCount Reading.no2 dbAfter.raw = nullCount Reading.no2 dbBefore.raw ∧
    nullCount Reading.o3 dbAfter.raw = nullCount Reading.o3 dbBefore.raw :=
  raw_store_untouched dbBefore dbAfter rfl

/-- C9 counterexample: one raw row against an empty analytics table is a
row-count mismatch (1 ≠ 0), yet `validate_pipeline` returns its report
successfully: it asserts nothing, so the mismatch is not a fatal
invariant violation. -/
theorem validator_no_assertion_counterexample :
    validate_pipeline [mkReading "A" (some 1)] []
      = Except.ok { raw_count := 1, raw_nulls := 0, analytics_count := 0 } ∧
    (1 : ℕ) ≠ 0 := by
  constructor
  · rfl
  · decide

/-- C9 amended: after transform the validator only computes and logs the
raw row count, the raw pm25 null count and the enriched row count; it
always completes successfully, whatever the counts are, so a mismatch
does not fail the run. -/
theorem validator_reports_counts (raw : List Reading) (analytics : List Enriched) :
    ∃ rep, validate_pipeline raw analytics = Except.ok rep ∧
      rep.raw_count = raw.length ∧
      rep.raw_nulls = nullCount Reading.pm25 raw ∧
      rep.analytics_count = analytics.length :=
  ⟨_, rfl, rfl, rfl, rfl⟩

/-- C10: for a raw row of a station with zero non-null pm25 values, the
enriched row has NULL pm25 and NULL aqi, yet its health_category is
Hazardous and its health_color is #7E0023: every `WHEN aqi <= c` of the
SQL `CASE` is non-true on NULL, so the `ELSE` branch is taken. -/
theorem null_station_hazardous (rows : List Reading) (r : Reading)
    (hr : r ∈ rows) (hnull : stationVals Reading.pm25 rows r.station_id = []) :
    (enrichRow rows r).pm25 = none ∧ (enrichRow rows r).aqi = none ∧
    (enrichRow rows r).health_category = "Hazardous" ∧
    (enrichRow rows r).health_color = "#7E0023" := by
  have hpm : r.pm25 = none := by
    cases hpm : r.pm25 with
    | none => rfl
    | some v =>
      exfalso
      have hv : v ∈ stationVals Reading.pm25 rows r.station_id := by
        unfold stationVals
        exact List.mem_filterMap.mpr ⟨r, List.mem_filter.mpr ⟨hr, by simp⟩, hpm⟩
      rw [hnull] at hv
      cases hv
  have h25 : (enrichRow rows r).pm25 = none := by
    show coalesce r.pm25 (stationAvg Reading.pm25 rows r.station_id) = none
    rw [hpm]
    show stationAvg Reading.pm25 rows r.station_id = none
    unfold stationAvg
    rw [hnull]
    rfl
  have haqi : (enrichRow rows r).aqi = none := by
    show aqiExpr ((enrichRow rows r).pm25) = none
    rw [h25]
    rfl
  refine ⟨h25, haqi, ?_, ?_⟩
  · show healthCategoryExpr ((enrichRow rows r).aqi) = "Hazardous"
    rw [haqi]
    rfl
  · show healthColorExpr ((enrichRow rows r).aqi) = "#7E0023"
    rw [haqi]
    rfl

/-- Witness for C10: a raw store with one all-null-pm25 station. -/
theorem null_station_hazardous_witness :
    (enrichRow [mkReading "Z" none] (mkReading "Z" none)).pm25 = none ∧
    (enrichRow [mkReading "Z" none] (mkReading "Z" none)).aqi = none ∧
    (enrichRow [mkReading "Z" none] (mkReading "Z" none)).health_category = "Hazardous" ∧
    (enrichRow [mkReading "Z" none] (mkReading "Z" none)).health_color = "#7E0023" :=
  null_station_hazardous [mkReading "Z" none] (mkReading "Z" none)
    (by simp) (by simp [stationVals, mkReading])
